import Mathlib

/-!
Shallow embedding of `src/importHelper.py` (grade import helper).

A parsed CSV file is modelled as a `List (List String)` of rows, exactly the
sequence of rows that Python's `csv.reader` yields.  Functions that print
diagnostics return the list of printed lines together with their result;
Python exceptions are modelled with `Except PyErr`.  Dictionaries
(`dict[str, List[str]]`) are modelled as functions `String → Option (List String)`
with last-write-wins update, matching Python dict assignment.
-/

/-- Python exceptions that the script can raise. -/
inductive PyErr where
  | indexError      -- list index out of range
  | valueError      -- e.g. `list.index` miss, or I/O operation on closed file
  | stopIteration   -- `next()` on an exhausted reader
  | keyError        -- dict lookup miss
deriving DecidableEq

/-- `dict[str, list[str]]`, as a lookup function. -/
def PyDict : Type := String → Option (List String)

/-- The empty dict `{}`. -/
def pyDictEmpty : PyDict := fun _ => none

/-- Python dict assignment `d[k] = v`: later writes overwrite earlier ones. -/
def dinsert (d : PyDict) (k : String) (v : List String) : PyDict :=
  fun q => if q = k then some v else d q

/-- Characters removed by Python `str.strip()` (ASCII whitespace). -/
def pySpaceChar (c : Char) : Bool :=
  c == ' ' || c == '\t' || c == '\n' || c == '\r' || c == '\x0b' || c == '\x0c'

/-- Python `str.strip()` (on the ASCII inputs this program handles). -/
def pyStrip (s : String) : String :=
  String.mk (((s.data.dropWhile pySpaceChar).reverse.dropWhile pySpaceChar).reverse)

/-- Python `str.lower()` (on the ASCII inputs this program handles). -/
def pyLower (s : String) : String :=
  String.mk (s.data.map fun c =>
    if 65 ≤ c.toNat ∧ c.toNat ≤ 90 then Char.ofNat (c.toNat + 32) else c)

/-- Python `list.index(x)`: first index of `x`, `ValueError` when absent. -/
def pyIndex (xs : List String) (x : String) : Except PyErr Nat :=
  match xs.findIdx? (fun h => h == x) with
  | some i => Except.ok i
  | none => Except.error PyErr.valueError

/-- Loop body of `grade_file_is_valid`: compare each data row's width with the
header width `n`, enumerating rows from `i` (Python `enumerate`, 0-based). -/
def gradeRowsCheck (n : Nat) : List (List String) → Nat → List String × Except PyErr Bool
  | [], _ => (["Grades file seems valid."], Except.ok true)
  | row :: rest, i =>
      if row.length ≠ n then
        ([s!"Invalid grades file, number of columns in row {i} doesn\x27t match header.",
          "Please check the file and try again."], Except.ok false)
      else gradeRowsCheck n rest (i + 1)

/-- `grade_file_is_valid`: the header is the first row; every later row must
have the same column count.  `next(reader)` on an empty file raises. -/
def grade_file_is_valid (rows : List (List String)) : List String × Except PyErr Bool :=
  match rows with
  | [] => ([], Except.error PyErr.stopIteration)
  | header :: rest => gradeRowsCheck header.length rest 0

/-- The `required_headers` list of `validate_headers`. -/
def required_headers : List String :=
  ["Student Email", "First Name", "Last Name", "Unique User ID"]

/-- `validate_headers`: the four required names must appear in the header row
(the source's strip loop rebinds the loop variable and is a no-op, so
membership is tested against the raw header), then `Student Email` must be at
index 0 and `Unique User ID` at index 3 (those two cells are stripped). -/
def validate_headers (rows : List (List String)) : List String × Except PyErr Bool :=
  match rows with
  | [] => ([], Except.error PyErr.stopIteration)
  | header_row :: _ =>
    let missing := required_headers.filterMap fun h =>
      if h ∈ header_row then none
      else some s!"Roster file must contain \x27{h}\x27 in the header row."
    if missing ≠ [] then
      (missing ++
        ["Roster file is missing required headers. Please check the file and try again."],
       Except.ok false)
    else
      match header_row[0]? with
      | none => ([], Except.error PyErr.indexError)
      | some h0 =>
        if pyStrip h0 ≠ "Student Email" then
          (["Roster file must contain \x27Student Email\x27 in the first column of the header row."],
           Except.ok false)
        else
          match header_row[3]? with
          | none => ([], Except.error PyErr.indexError)
          | some h3 =>
            if pyStrip h3 ≠ "Unique User ID" then
              (["Roster file must contain \x27Unique User ID\x27 in the fourth column of the header row."],
               Except.ok false)
            else ([], Except.ok true)

/-- `re.match(r'^[a-zA-Z]{2}(\d+)(@.*)$', email)` over the character list:
two ASCII letters, a nonempty greedy digit group (group 1), `@`, then `.*$` —
`.` does not match a newline and `$` matches at the end or just before one
trailing newline.  The greedy `\d+` followed by the literal `@` is exactly
`takeWhile isDigit` followed by a required `@`, since backtracking to a
shorter digit group would put a digit where `@` is required.  `\d` is
modelled as the ASCII digits (`Char.isDigit`), matching the inputs this
program handles. -/
def re_match_chars : List Char → Option (List Char)
  | c1 :: c2 :: rest =>
    if c1.isAlpha && c2.isAlpha && !(rest.takeWhile Char.isDigit).isEmpty then
      match rest.dropWhile Char.isDigit with
      | '@' :: tail =>
        if (match tail.reverse with
            | '\n' :: t => t.reverse
            | _ => tail).all (fun c => c != '\n') then
          some (rest.takeWhile Char.isDigit)
        else none
      | _ => none
    else none
  | _ => none

/-- `re.match(r'^[a-zA-Z]{2}(\d+)(@.*)$', email)`, returning `group(1)`. -/
def re_match_student_email (email : String) : Option String :=
  (re_match_chars email.data).map String.mk

/-- Loop body of `validate_student_ids`: for each data row (enumerated from
`i`) read the email and unique id cells, match the email against the id
pattern, and compare the captured digits with `"1_" + digits`; the source
returns `False` at the first violating row. -/
def ids_loop (header_row : List String) :
    List (List String) → Nat → List String × Except PyErr Bool
  | [], _ => ([], Except.ok true)
  | row :: rest, i =>
    match pyIndex header_row "Student Email" with
    | Except.error e => ([], Except.error e)
    | Except.ok se =>
      match row[se]? with
      | none => ([], Except.error PyErr.indexError)
      | some student_email =>
        match pyIndex header_row "Unique User ID" with
        | Except.error e => ([], Except.error e)
        | Except.ok uu =>
          match row[uu]? with
          | none => ([], Except.error PyErr.indexError)
          | some unique_id =>
            match re_match_student_email student_email with
            | some student_id =>
              if unique_id ≠ "1_" ++ student_id then
                ([s!"Student id in email and unique id do not match in row {i + 1}.",
                  "Please check the file and try again."], Except.ok false)
              else ids_loop header_row rest (i + 1)
            | none =>
              ([s!"Invalid email format in row {i + 1}.",
                "Please check the file and try again."], Except.ok false)

/-- `validate_student_ids`: skip the header, then run the cross-id check over
the data rows. -/
def validate_student_ids (rows : List (List String)) : List String × Except PyErr Bool :=
  match rows with
  | [] => ([], Except.error PyErr.stopIteration)
  | header_row :: rest => ids_loop header_row rest 0

/-- Loop body of `validate_student_data`: rows narrower than 4 columns are
flagged and skipped (`continue`); otherwise the email and unique id cells must
be non-empty.  `flag` is the accumulated `is_data_missing`. -/
def data_loop (header_row : List String) :
    List (List String) → Nat → Bool → List String × Except PyErr Bool
  | [], _, flag =>
    if flag then
      (["Roster file is missing required data. Please check the file and try again."],
       Except.ok false)
    else ([], Except.ok true)
  | row :: rest, i, flag =>
    if row.length < 4 then
      let r := data_loop header_row rest (i + 1) true
      (s!"Missing data in row {i + 1}. Roster file should contain 4 columns for each student."
         :: r.1, r.2)
    else
      match pyIndex header_row "Unique User ID" with
      | Except.error e => ([], Except.error e)
      | Except.ok ui =>
        match row[ui]? with
        | none => ([], Except.error PyErr.indexError)
        | some unique_id =>
          match pyIndex header_row "Student Email" with
          | Except.error e => ([], Except.error e)
          | Except.ok si =>
            match row[si]? with
            | none => ([], Except.error PyErr.indexError)
            | some student_email =>
              if student_email = "" ∨ unique_id = "" then
                let r := data_loop header_row rest (i + 1) true
                (s!"Missing data in row {i + 1}. Email and Unique Id should not be empty."
                   :: "Please check the file and try again." :: r.1, r.2)
              else data_loop header_row rest (i + 1) flag

/-- `validate_student_data`: skip the header, then run the width/non-empty
check over the data rows. -/
def validate_student_data (rows : List (List String)) : List String × Except PyErr Bool :=
  match rows with
  | [] => ([], Except.error PyErr.stopIteration)
  | header_row :: rest => data_loop header_row rest 0 false

/-- `roster_file_is_valid`: `validate_headers and validate_student_ids and
validate_student_data` — Python `and` short-circuits, so a failed (or raising)
earlier check prevents the later checks from running. -/
def roster_file_is_valid (rows : List (List String)) : List String × Except PyErr Bool :=
  match validate_headers rows with
  | (m1, Except.error e) => (m1, Except.error e)
  | (m1, Except.ok false) => (m1, Except.ok false)
  | (m1, Except.ok true) =>
    match validate_student_ids rows with
    | (m2, Except.error e) => (m1 ++ m2, Except.error e)
    | (m2, Except.ok false) => (m1 ++ m2, Except.ok false)
    | (m2, Except.ok true) =>
      match validate_student_data rows with
      | (m3, Except.error e) => (m1 ++ m2 ++ m3, Except.error e)
      | (m3, Except.ok false) => (m1 ++ m2 ++ m3, Except.ok false)
      | (m3, Except.ok true) =>
        (m1 ++ m2 ++ m3 ++ ["Roster file seems valid."], Except.ok true)

/-- The activity-type allow-list of `get_CodeHS_graded_assignments`. -/
def codehs_graded_types : List String :=
  ["check for understanding", "exercise", "unit quiz"]

/-- Enumeration loop of `get_CodeHS_graded_assignments`: keep the index of
every activity type that, stripped and lowercased, is in the allow-list. -/
def gradedIdxLoop : List String → Nat → List Nat
  | [], _ => []
  | t :: rest, i =>
    if pyLower (pyStrip t) ∈ codehs_graded_types then i :: gradedIdxLoop rest (i + 1)
    else gradedIdxLoop rest (i + 1)

/-- `get_CodeHS_graded_assignments`: skip two rows, read the activity-type row,
and filter its indices by the allow-list.  Fewer than three rows makes a
`next()` call raise.  The source performs no comparison between the length of
the activity-type row and the primary header's column count. -/
def get_CodeHS_graded_assignments (rows : List (List String)) : Except PyErr (List Nat) :=
  match rows with
  | _ :: _ :: assignment_types :: _ => Except.ok (gradedIdxLoop assignment_types 0)
  | _ => Except.error PyErr.stopIteration

/-- A Python file handle: `with open(...)` yields one with `closed := false`;
leaving the `with` block closes it. -/
structure PyFile where
  rows : List (List String)
  pos : Nat
  closed : Bool

/-- `next()` on a `csv.reader` over a file handle: raises `ValueError`
(« I/O operation on closed file ») when the handle is closed, `StopIteration`
when the rows are exhausted. -/
def fileNext (f : PyFile) : Except PyErr (List String × PyFile) :=
  if f.closed then Except.error PyErr.valueError
  else
    match f.rows[f.pos]? with
    | some r => Except.ok (r, { f with pos := f.pos + 1 })
    | none => Except.error PyErr.stopIteration

/-- `get_ProjectStem_graded_assignments`: in the source, the `with` block
contains only `reader = csv.reader(file)`; `header = next(reader)` is written
at function level, so it executes after the block exits and the file is
closed.  The read therefore raises before the header length is ever taken. -/
def get_ProjectStem_graded_assignments (rows : List (List String)) : Except PyErr (List Nat) :=
  let file : PyFile := { rows := rows, pos := 0, closed := false }
  let fileAfterWith : PyFile := { file with closed := true }
  match fileNext fileAfterWith with
  | Except.error e => Except.error e
  | Except.ok (header, _) => Except.ok ((List.range header.length).drop 2)

/-- `getGradedAssignments`: dispatch on the import type; any other type leaves
the initial empty list. -/
def getGradedAssignments (rows : List (List String)) (import_type : String) :
    Except PyErr (List Nat) :=
  if import_type = "P" then get_ProjectStem_graded_assignments rows
  else if import_type = "C" then get_CodeHS_graded_assignments rows
  else Except.ok []

/-- Row loop of `get_students_in_roster`: each data row is stored under its
column-0 email (`row[0]` raises on an empty row). -/
def addRosterRows (d : PyDict) : List (List String) → Except PyErr PyDict
  | [] => Except.ok d
  | row :: rest =>
    match row[0]? with
    | none => Except.error PyErr.indexError
    | some student_email => addRosterRows (dinsert d student_email row) rest

/-- `get_students_in_roster`: the header row is stored under the literal key
`"header"` in the same dict that maps each student email to its row. -/
def get_students_in_roster (rows : List (List String)) : Except PyErr PyDict :=
  match rows with
  | [] => Except.error PyErr.stopIteration
  | header_row :: rest => addRosterRows (dinsert pyDictEmpty "header" header_row) rest

/-- Row loop of `get_codehs_grades_from_file`: each data row is stored under
its column-2 email. -/
def addGradeRows (d : PyDict) : List (List String) → Except PyErr PyDict
  | [] => Except.ok d
  | row :: rest =>
    match row[2]? with
    | none => Except.error PyErr.indexError
    | some student_email => addGradeRows (dinsert d student_email row) rest

/-- `get_codehs_grades_from_file`: the first row is stored under the literal
key `"header"`, the next two rows are skipped, and each data row is stored
under its column-2 email in the same dict. -/
def get_codehs_grades_from_file (rows : List (List String)) : Except PyErr PyDict :=
  match rows with
  | r0 :: _ :: _ :: rest => addGradeRows (dinsert pyDictEmpty "header" r0) rest
  | _ => Except.error PyErr.stopIteration

/-- Name loop of `build_CodeHS_csv_header`: `grades["header"][i]` for each
selected index (`KeyError` or `IndexError` when absent). -/
def headerNames (grades : PyDict) : List Nat → Except PyErr (List String)
  | [] => Except.ok []
  | i :: rest =>
    match grades "header" with
    | none => Except.error PyErr.keyError
    | some hdr =>
      match hdr[i]? with
      | none => Except.error PyErr.indexError
      | some name =>
        match headerNames grades rest with
        | Except.error e => Except.error e
        | Except.ok names => Except.ok (name :: names)

/-- `build_CodeHS_csv_header`: the fixed identity prefix followed by the names
of the selected assignment columns. -/
def build_CodeHS_csv_header (grades : PyDict) (graded_assignments : List Nat) :
    Except PyErr (List String) :=
  match headerNames grades graded_assignments with
  | Except.error e => Except.error e
  | Except.ok assignments =>
    Except.ok (["Email", "First Name", "Last Name", "Unique User ID"] ++ assignments)

/-- `build_CodeHS_row`: the source body is `pass`, so the call returns `None`
and no row is ever assembled. -/
def build_CodeHS_row (student : String) (roster grades : PyDict)
    (graded_assignments : List Nat) : Option (List String) :=
  none

/-- `build_CodeHS_csv`: opens the output file, writes the assembled header
row — and nothing else: the per-student loop in the source is commented out,
so the written file consists of the header row only.  The result is the list
of rows written to the output file. -/
def build_CodeHS_csv (roster grades : PyDict) (graded_assignments : List Nat) :
    Except PyErr (List (List String)) :=
  match build_CodeHS_csv_header grades graded_assignments with
  | Except.error e => Except.error e
  | Except.ok header =>
    let _ := roster
    Except.ok [header]

/-- Outcome of one run of `main`: `exit1` models `exit(1)` (termination with
status 1), `crashed` an uncaught exception, `done` normal termination; only
`done` carries an output file, and only when one was opened and written. -/
inductive RunResult where
  | exit1 (printed : List String)
  | crashed (e : PyErr) (printed : List String)
  | done (printed : List String) (output : Option (List (List String)))
deriving DecidableEq

/-- Whether a run wrote an output file. -/
def wroteOutput : RunResult → Bool
  | RunResult.done _ (some _) => true
  | _ => false

/-- `main`, over the resolved configuration (import type and the two parsed
input files; the interactive prompts are external collaborators).  The grade
file is validated first, then the roster; each failure prints a diagnostic and
exits with status 1.  The output file is opened and written only inside
`build_CodeHS_csv`, after both validations succeeded.  (The success-path echo
of the graded-assignment indices is elided from the printed lines.)
Named `main` in the source; `main` is reserved in Lean. -/
def main_run (import_type : String) (roster_rows grade_rows : List (List String)) : RunResult :=
  match grade_file_is_valid grade_rows with
  | (gm, Except.error e) => RunResult.crashed e gm
  | (gm, Except.ok false) =>
    RunResult.exit1 (gm ++ ["Invalid grades file. Please check the file and try again."])
  | (gm, Except.ok true) =>
    match roster_file_is_valid roster_rows with
    | (rm, Except.error e) => RunResult.crashed e (gm ++ rm)
    | (rm, Except.ok false) =>
      RunResult.exit1 (gm ++ rm ++ ["Invalid roster file. Please check the file and try again."])
    | (rm, Except.ok true) =>
      match getGradedAssignments grade_rows import_type with
      | Except.error e => RunResult.crashed e (gm ++ rm)
      | Except.ok graded =>
        match get_students_in_roster roster_rows with
        | Except.error e => RunResult.crashed e (gm ++ rm)
        | Except.ok roster =>
          if import_type = "C" then
            match get_codehs_grades_from_file grade_rows with
            | Except.error e => RunResult.crashed e (gm ++ rm)
            | Except.ok grades =>
              match build_CodeHS_csv roster grades graded with
              | Except.error e => RunResult.crashed e (gm ++ rm)
              | Except.ok out => RunResult.done (gm ++ rm) (some out)
          else if import_type = "P" then
            RunResult.done (gm ++ rm ++ ["ProjectStem import is not yet implemented."]) none
          else RunResult.done (gm ++ rm) none

/-! ## Declarative characterizations used by the claim theorems -/

/-- Declarative reading of the pattern `^[A-Za-z]{2}(\d+)@.*$` on a character
list `l` with captured digit group `ds`: two letters, the nonempty all-digit
group, `@`, and a remainder that contains no newline except possibly one at
the very end (the `$` convention of `re.match` without `MULTILINE`). -/
def emailPatternChars (l ds : List Char) : Prop :=
  ∃ c1 c2 rest, l = c1 :: c2 :: (ds ++ '@' :: rest) ∧
    c1.isAlpha = true ∧ c2.isAlpha = true ∧ ds ≠ [] ∧
    (∀ c ∈ ds, c.isDigit = true) ∧
    ((∀ c ∈ rest, c ≠ '\n') ∨ ∃ r, rest = r ++ ['\n'] ∧ ∀ c ∈ r, c ≠ '\n')

/-- Declarative reading of the email pattern at the `String` level. -/
def emailPattern (e ds : String) : Prop :=
  emailPatternChars e.data ds.data

lemma takeWhile_append_stop (p : Char → Bool) :
    ∀ (l1 : List Char) (a : Char) (l2 : List Char),
      (∀ c ∈ l1, p c = true) → p a = false →
      (l1 ++ a :: l2).takeWhile p = l1 := by
  intro l1 a l2 h1 ha
  induction l1 with
  | nil => simp [List.takeWhile, ha]
  | cons c cs ih =>
    have hc : p c = true := h1 c (List.mem_cons_self c cs)
    simp only [List.cons_append, List.takeWhile_cons, hc, if_true]
    rw [ih (fun d hd => h1 d (List.mem_cons_of_mem c hd))]

lemma dropWhile_append_stop (p : Char → Bool) :
    ∀ (l1 : List Char) (a : Char) (l2 : List Char),
      (∀ c ∈ l1, p c = true) → p a = false →
      (l1 ++ a :: l2).dropWhile p = a :: l2 := by
  intro l1 a l2 h1 ha
  induction l1 with
  | nil => simp [List.dropWhile, ha]
  | cons c cs ih =>
    have hc : p c = true := h1 c (List.mem_cons_self c cs)
    simp only [List.cons_append, List.dropWhile_cons, hc, if_true]
    exact ih (fun d hd => h1 d (List.mem_cons_of_mem c hd))


lemma re_match_chars_iff (l ds : List Char) :
    re_match_chars l = some ds ↔ emailPatternChars l ds := by
  constructor
  · intro h
    match l, h with
    | c1 :: c2 :: rest, h =>
      unfold re_match_chars at h
      simp only [] at h
      by_cases hc : (c1.isAlpha && c2.isAlpha && !(rest.takeWhile Char.isDigit).isEmpty) = true
      · rw [if_pos hc] at h
        have h1 : c1.isAlpha = true := by
          have hx := hc; simp only [Bool.and_eq_true] at hx; exact hx.1.1
        have h2 : c2.isAlpha = true := by
          have hx := hc; simp only [Bool.and_eq_true] at hx; exact hx.1.2
        have hne : (rest.takeWhile Char.isDigit).isEmpty = false := by
          have hx := hc; simp only [Bool.and_eq_true, Bool.not_eq_true'] at hx; exact hx.2
        split at h
        · next tail heq =>
          split at h
          · next hall =>
            injection h with hds
            have hrest : ds ++ '@' :: tail = rest := by
              rw [← hds, ← heq]; exact List.takeWhile_append_dropWhile Char.isDigit rest
            refine ⟨c1, c2, tail, by rw [hrest], h1, h2, ?_, ?_, ?_⟩
            · intro hnil
              rw [hds, hnil] at hne
              simp at hne
            · intro c hcMem
              rw [← hds] at hcMem
              exact List.mem_takeWhile_imp hcMem
            · split at hall
              · next t htr =>
                right
                refine ⟨t.reverse, ?_, ?_⟩
                · have := congrArg List.reverse htr
                  simpa using this
                · intro c hcMem hceq
                  have h3 := List.all_eq_true.mp hall c hcMem
                  subst hceq; simp at h3
              · left
                intro c hcMem hceq
                have h3 := List.all_eq_true.mp hall c hcMem
                subst hceq; simp at h3
          · next => exact absurd h (by simp)
        · next => exact absurd h (by simp)
      · rw [if_neg hc] at h
        exact absurd h (by simp)
  · rintro ⟨c1, c2, rest, rfl, h1, h2, hne, hdig, hnl⟩
    unfold re_match_chars
    simp only []
    have htake : (ds ++ '@' :: rest).takeWhile Char.isDigit = ds :=
      takeWhile_append_stop Char.isDigit ds '@' rest hdig (by decide)
    have hdrop : (ds ++ '@' :: rest).dropWhile Char.isDigit = '@' :: rest :=
      dropWhile_append_stop Char.isDigit ds '@' rest hdig (by decide)
    rw [htake, hdrop]
    have hnonempty : ds.isEmpty = false := by
      rcases ds with _ | ⟨d, ds'⟩
      · exact absurd rfl hne
      · rfl
    have hb : (c1.isAlpha && c2.isAlpha && !ds.isEmpty) = true := by
      rw [h1, h2, hnonempty]; rfl
    rw [if_pos hb]
    split
    · next t htr =>
      have ht : rest = t := by injection htr
      subst ht
      split
      · rfl
      · next hfalse =>
        exfalso
        apply hfalse
        split
        · next t2 htr2 =>
          rcases hnl with hleft | ⟨r, hrestr, hr⟩
          · exfalso
            have hmem : '\n' ∈ rest := by
              rw [← List.mem_reverse, htr2]
              exact List.mem_cons_self _ _
            exact hleft '\n' hmem rfl
          · subst hrestr
            have hrev : ('\n' : Char) :: r.reverse = '\n' :: t2 := by
              rw [← htr2, List.reverse_append]
              rfl
            have ht2 : t2 = r.reverse := by
              injection hrev with h4 h5
              exact h5.symm
            subst ht2
            rw [List.reverse_reverse]
            exact List.all_eq_true.mpr fun c hcMem => by
              have := hr c hcMem; simpa using this
        · next hnomatch =>
          rcases hnl with hleft | ⟨r, hrestr, hr⟩
          · exact List.all_eq_true.mpr fun c hcMem => by
              have := hleft c hcMem; simpa using this
          · exfalso
            subst hrestr
            exact hnomatch r.reverse (by rw [List.reverse_append]; rfl)
    · next hnomatch =>
      exact absurd rfl (hnomatch rest)

/-- The string-level matcher succeeds with group `ds` exactly when the
declarative pattern holds. -/
lemma re_match_student_email_iff (e ds : String) :
    re_match_student_email e = some ds ↔ emailPattern e ds := by
  unfold re_match_student_email emailPattern
  rw [← re_match_chars_iff]
  constructor
  · intro h
    rcases hm : re_match_chars e.data with _ | l
    · rw [hm] at h; simp at h
    · rw [hm] at h
      have hmk : String.mk l = ds := by simpa using h
      subst hmk
      simpa using hm
  · intro h
    rw [h]
    rcases ds with ⟨l⟩
    rfl

/-- One data row passes the cross-id check: its email cell matches the id
pattern and its unique-id cell is `"1_"` followed by the captured digits. -/
def idRowOk (row : List String) : Prop :=
  ∃ e u ds, row[0]? = some e ∧ row[3]? = some u ∧
    re_match_student_email e = some ds ∧ u = "1_" ++ ds

lemma ids_loop_ok (header_row : List String)
    (hSE : pyIndex header_row "Student Email" = Except.ok 0)
    (hUU : pyIndex header_row "Unique User ID" = Except.ok 3) :
    ∀ (rows : List (List String)) (i : Nat),
      (∀ row ∈ rows, idRowOk row) →
      ids_loop header_row rows i = ([], Except.ok true) := by
  intro rows
  induction rows with
  | nil => intro i h; rfl
  | cons r0 rest ih =>
    intro i h
    obtain ⟨e, u, ds, h0, h3, hm, hu⟩ := h r0 (List.mem_cons_self r0 rest)
    simp only [ids_loop, hSE, hUU, h0, h3, hm]
    rw [hu]
    simp only [ne_eq, not_true_eq_false, if_false]
    exact ih (i + 1) (fun r hr => h r (List.mem_cons_of_mem r0 hr))

lemma ids_loop_first_bad (header_row : List String)
    (hSE : pyIndex header_row "Student Email" = Except.ok 0)
    (hUU : pyIndex header_row "Unique User ID" = Except.ok 3) :
    ∀ (rows : List (List String)) (j i : Nat) (row : List String) (e u : String),
      rows[j]? = some row →
      (∀ k r, k < j → rows[k]? = some r → idRowOk r) →
      row[0]? = some e → row[3]? = some u →
      ((re_match_student_email e = none →
         ids_loop header_row rows i =
           ([s!"Invalid email format in row {i + j + 1}.",
             "Please check the file and try again."], Except.ok false)) ∧
       (∀ ds, re_match_student_email e = some ds → u ≠ "1_" ++ ds →
         ids_loop header_row rows i =
           ([s!"Student id in email and unique id do not match in row {i + j + 1}.",
             "Please check the file and try again."], Except.ok false))) := by
  intro rows
  induction rows with
  | nil => intro j i row e u hj; simp at hj
  | cons r0 rest ih =>
    intro j i row e u hj hbefore h0 h3
    cases j with
    | zero =>
      have hr0 : r0 = row := by simpa using hj
      subst hr0
      constructor
      · intro hm
        simp only [ids_loop, hSE, hUU, h0, h3, hm]
      · intro ds hm hu
        simp only [ids_loop, hSE, hUU, h0, h3, hm]
        rw [if_pos hu]
    | succ j' =>
      have hok0 : idRowOk r0 := hbefore 0 r0 (Nat.succ_pos j') (by simp)
      obtain ⟨e0, u0, ds0, h00, h03, hm0, hu0⟩ := hok0
      have hrec := ih j' (i + 1) row e u (by simpa using hj)
        (fun k r hk hr => hbefore (k + 1) r (Nat.succ_lt_succ hk) (by simpa using hr))
        h0 h3
      have harith : i + 1 + j' + 1 = i + (j' + 1) + 1 := by omega
      rw [harith] at hrec
      constructor
      · intro hm
        have hgoal := hrec.1 hm
        simp only [ids_loop, hSE, hUU, h00, h03, hm0]
        rw [hu0]
        simp only [ne_eq, not_true_eq_false, if_false]
        exact hgoal
      · intro ds hm hu
        have hgoal := hrec.2 ds hm hu
        simp only [ids_loop, hSE, hUU, h00, h03, hm0]
        rw [hu0]
        simp only [ne_eq, not_true_eq_false, if_false]
        exact hgoal

lemma roster_of_headers_error (rows : List (List String)) (m : List String) (e : PyErr)
    (h : validate_headers rows = (m, Except.error e)) :
    roster_file_is_valid rows = (m, Except.error e) := by
  unfold roster_file_is_valid; rw [h]

lemma roster_of_headers_false (rows : List (List String)) (m : List String)
    (h : validate_headers rows = (m, Except.ok false)) :
    roster_file_is_valid rows = (m, Except.ok false) := by
  unfold roster_file_is_valid; rw [h]

lemma roster_of_ids_error (rows : List (List String)) (m1 m2 : List String) (e : PyErr)
    (h1 : validate_headers rows = (m1, Except.ok true))
    (h2 : validate_student_ids rows = (m2, Except.error e)) :
    roster_file_is_valid rows = (m1 ++ m2, Except.error e) := by
  unfold roster_file_is_valid; rw [h1, h2]

lemma roster_of_ids_false (rows : List (List String)) (m1 m2 : List String)
    (h1 : validate_headers rows = (m1, Except.ok true))
    (h2 : validate_student_ids rows = (m2, Except.ok false)) :
    roster_file_is_valid rows = (m1 ++ m2, Except.ok false) := by
  unfold roster_file_is_valid; rw [h1, h2]

lemma roster_of_data_error (rows : List (List String)) (m1 m2 m3 : List String) (e : PyErr)
    (h1 : validate_headers rows = (m1, Except.ok true))
    (h2 : validate_student_ids rows = (m2, Except.ok true))
    (h3 : validate_student_data rows = (m3, Except.error e)) :
    roster_file_is_valid rows = (m1 ++ m2 ++ m3, Except.error e) := by
  unfold roster_file_is_valid; rw [h1, h2, h3]

lemma roster_of_data_false (rows : List (List String)) (m1 m2 m3 : List String)
    (h1 : validate_headers rows = (m1, Except.ok true))
    (h2 : validate_student_ids rows = (m2, Except.ok true))
    (h3 : validate_student_data rows = (m3, Except.ok false)) :
    roster_file_is_valid rows = (m1 ++ m2 ++ m3, Except.ok false) := by
  unfold roster_file_is_valid; rw [h1, h2, h3]

lemma roster_of_all_ok (rows : List (List String)) (m1 m2 m3 : List String)
    (h1 : validate_headers rows = (m1, Except.ok true))
    (h2 : validate_student_ids rows = (m2, Except.ok true))
    (h3 : validate_student_data rows = (m3, Except.ok true)) :
    roster_file_is_valid rows =
      (m1 ++ m2 ++ m3 ++ ["Roster file seems valid."], Except.ok true) := by
  unfold roster_file_is_valid; rw [h1, h2, h3]

lemma gradeRowsCheck_all (n : Nat) :
    ∀ (rows : List (List String)) (i : Nat),
      (∀ row ∈ rows, row.length = n) →
      gradeRowsCheck n rows i = (["Grades file seems valid."], Except.ok true) := by
  intro rows
  induction rows with
  | nil => intro i h; rfl
  | cons r0 rest ih =>
    intro i h
    have h0 : r0.length = n := h r0 (List.mem_cons_self r0 rest)
    simp only [gradeRowsCheck, h0, ne_eq, not_true_eq_false, if_false]
    exact ih (i + 1) (fun r hr => h r (List.mem_cons_of_mem r0 hr))

lemma gradeRowsCheck_exists_bad (n : Nat) :
    ∀ (rows : List (List String)) (i : Nat),
      (∃ row ∈ rows, row.length ≠ n) →
      (gradeRowsCheck n rows i).2 = Except.ok false := by
  intro rows
  induction rows with
  | nil => intro i h; simp at h
  | cons r0 rest ih =>
    intro i h
    by_cases h0 : r0.length = n
    · simp only [gradeRowsCheck, h0, ne_eq, not_true_eq_false, if_false]
      apply ih (i + 1)
      rcases h with ⟨row, hmem, hlen⟩
      rcases List.mem_cons.mp hmem with rfl | hmem2
      · exact absurd h0 hlen
      · exact ⟨row, hmem2, hlen⟩
    · simp only [gradeRowsCheck, if_pos h0]

lemma gradeRowsCheck_first_bad (n : Nat) :
    ∀ (rows : List (List String)) (j i : Nat) (row : List String),
      rows[j]? = some row → row.length ≠ n →
      (∀ k r, k < j → rows[k]? = some r → r.length = n) →
      gradeRowsCheck n rows i =
        ([s!"Invalid grades file, number of columns in row {i + j} doesn\x27t match header.",
          "Please check the file and try again."], Except.ok false) := by
  intro rows
  induction rows with
  | nil => intro j i row hj; simp at hj
  | cons r0 rest ih =>
    intro j i row hj hbad hbefore
    cases j with
    | zero =>
      have hr0 : r0 = row := by simpa using hj
      subst hr0
      simp only [gradeRowsCheck, if_pos hbad]
      rfl
    | succ j' =>
      have h0 : r0.length = n := hbefore 0 r0 (Nat.succ_pos j') (by simp)
      have hrec := ih j' (i + 1) row (by simpa using hj) hbad
        (fun k r hk hr => hbefore (k + 1) r (Nat.succ_lt_succ hk) (by simpa using hr))
      have harith : i + 1 + j' = i + (j' + 1) := by omega
      rw [harith] at hrec
      simp only [gradeRowsCheck, h0, ne_eq, not_true_eq_false, if_false]
      exact hrec

lemma mem_gradedIdxLoop :
    ∀ (types : List String) (k i : Nat),
      i ∈ gradedIdxLoop types k ↔
        ∃ j t, types[j]? = some t ∧ pyLower (pyStrip t) ∈ codehs_graded_types ∧ i = k + j := by
  intro types
  induction types with
  | nil =>
    intro k i
    simp [gradedIdxLoop]
  | cons t0 rest ih =>
    intro k i
    by_cases hc : pyLower (pyStrip t0) ∈ codehs_graded_types
    · simp only [gradedIdxLoop, if_pos hc, List.mem_cons, ih (k + 1) i]
      constructor
      · rintro (rfl | ⟨j, t, hj, ht, rfl⟩)
        · exact ⟨0, t0, by simp, hc, by omega⟩
        · exact ⟨j + 1, t, by simpa using hj, ht, by omega⟩
      · rintro ⟨j, t, hj, ht, rfl⟩
        cases j with
        | zero =>
          left
          omega
        | succ j' =>
          right
          exact ⟨j', t, by simpa using hj, ht, by omega⟩
    · simp only [gradedIdxLoop, if_neg hc, ih (k + 1) i]
      constructor
      · rintro ⟨j, t, hj, ht, rfl⟩
        exact ⟨j + 1, t, by simpa using hj, ht, by omega⟩
      · rintro ⟨j, t, hj, ht, rfl⟩
        cases j with
        | zero =>
          have ht0 : t0 = t := by simpa using hj
          subst ht0
          exact absurd ht hc
        | succ j' =>
          exact ⟨j', t, by simpa using hj, ht, by omega⟩

/-- The last row of `rows` whose cell at `keyIdx` equals `k`, if any. -/
def lastKeyed (keyIdx : Nat) (k : String) : List (List String) → Option (List String)
  | [] => none
  | row :: rest =>
    match lastKeyed keyIdx k rest with
    | some r => some r
    | none => if row[keyIdx]? = some k then some row else none

lemma addRosterRows_lookup :
    ∀ (rows : List (List String)) (d d' : PyDict),
      addRosterRows d rows = Except.ok d' →
      ∀ k, d' k = (match lastKeyed 0 k rows with
                   | some r => some r
                   | none => d k) := by
  intro rows
  induction rows with
  | nil =>
    intro d d' h k
    have hd : d = d' := by
      simpa [addRosterRows] using h
    subst hd
    rfl
  | cons row rest ih =>
    intro d d' h k
    rcases h0 : row[0]? with _ | e
    · rw [addRosterRows, h0] at h
      exact absurd h (by simp)
    · rw [addRosterRows, h0] at h
      have hrec := ih (dinsert d e row) d' h k
      rw [hrec]
      show _ = (match lastKeyed 0 k (row :: rest) with
                | some r => some r
                | none => d k)
      rw [lastKeyed]
      rcases hlast : lastKeyed 0 k rest with _ | r
      · simp only []
        unfold dinsert
        by_cases hk : k = e
        · subst hk
          rw [if_pos rfl, h0, if_pos rfl]
        · rw [if_neg hk]
          have : ¬ (row[0]? = some k) := by
            rw [h0]
            intro hcontra
            exact hk (by injection hcontra with h2; exact h2.symm)
          rw [if_neg this]
      · simp only []

lemma addGradeRows_lookup :
    ∀ (rows : List (List String)) (d d' : PyDict),
      addGradeRows d rows = Except.ok d' →
      ∀ k, d' k = (match lastKeyed 2 k rows with
                   | some r => some r
                   | none => d k) := by
  intro rows
  induction rows with
  | nil =>
    intro d d' h k
    have hd : d = d' := by
      simpa [addGradeRows] using h
    subst hd
    rfl
  | cons row rest ih =>
    intro d d' h k
    rcases h0 : row[2]? with _ | e
    · rw [addGradeRows, h0] at h
      exact absurd h (by simp)
    · rw [addGradeRows, h0] at h
      have hrec := ih (dinsert d e row) d' h k
      rw [hrec]
      show _ = (match lastKeyed 2 k (row :: rest) with
                | some r => some r
                | none => d k)
      rw [lastKeyed]
      rcases hlast : lastKeyed 2 k rest with _ | r
      · simp only []
        unfold dinsert
        by_cases hk : k = e
        · subst hk
          rw [if_pos rfl, h0, if_pos rfl]
        · rw [if_neg hk]
          have : ¬ (row[2]? = some k) := by
            rw [h0]
            intro hcontra
            exact hk (by injection hcontra with h2; exact h2.symm)
          rw [if_neg this]
      · simp only []

/-! ## Concrete inputs used by witnesses and counterexamples -/

/-- A roster with one valid student, Jane Doe. -/
def rosterJane : List (List String) :=
  [["Student Email", "First Name", "Last Name", "Unique User ID"],
   ["jd1@x.org", "Jane", "Doe", "1_1"]]

/-- A CodeHS grade file whose data row matches Jane by the column-2 email. -/
def gradesJane : List (List String) :=
  [["Name", "Section", "Email", "Level", "A1"],
   ["meta"],
   ["exercise"],
   ["Jane", "S1", "jd1@x.org", "3", "100"]]

/-- A roster with a valid header and one 2-column data row. -/
def shortRowRoster : List (List String) :=
  [["Student Email", "First Name", "Last Name", "Unique User ID"],
   ["ab12@x.org", "Jane"]]

/-- A fully valid roster. -/
def okRoster : List (List String) :=
  [["Student Email", "First Name", "Last Name", "Unique User ID"],
   ["ab12@x.org", "A", "B", "1_12"]]

/-- A grade file whose first data row is narrower than the header. -/
def badGrades : List (List String) :=
  [["a"], ["b", "c"]]

/-- A structurally valid CodeHS grade file. -/
def okGrades : List (List String) :=
  [["Name", "Sec", "Email", "Lv", "A1"],
   ["m1", "m2", "m3", "m4", "m5"],
   ["t1", "t2", "exercise", "t4", "t5"],
   ["Jane", "S", "jd1@x.org", "3", "9"]]

/-- A roster whose only data row has mismatched email and unique-id digits. -/
def badRoster : List (List String) :=
  [["Student Email", "First Name", "Last Name", "Unique User ID"],
   ["ab12@x.org", "A", "B", "1_99"]]

/-- A grade file with a 5-column header whose second data row has 4 columns. -/
def badGrades2 : List (List String) :=
  [["a", "b", "c", "d", "e"],
   ["p", "q", "r", "s", "t"],
   ["u", "v", "w", "x"]]

/-- A CodeHS grade file whose activity-type row is shorter than the header. -/
def mismatchedGrades : List (List String) :=
  [["Name", "Id", "Email", "A1", "A2"], ["meta"], ["exercise", "video", "exercise"]]

/-- Activity types exercising the allow-list boundary cases. -/
def sampleTypes : List String :=
  ["Exercise", " Video ", "exercise ", "video", "Check for Understanding", "Badge"]

/-- A roster with a valid header and two id-mismatch rows. -/
def twoBadRowsRoster : List (List String) :=
  [["Student Email", "First Name", "Last Name", "Unique User ID"],
   ["ab11@x.org", "A", "B", "1_99"],
   ["cd22@x.org", "C", "D", "1_88"]]

/-- A roster missing the `First Name` header whose data row also has empty
identity cells. -/
def missingHeaderRoster : List (List String) :=
  [["Student Email", "Last Name", "X", "Unique User ID"],
   ["", "A", "B", ""]]

/-- A roster containing a data row whose email cell is the string `header`. -/
def headerKeyRoster : List (List String) :=
  [["Student Email", "First Name", "Last Name", "Unique User ID"],
   ["header", "X", "Y", "1_1"]]

/-- A grade file containing a data row whose column-2 key is `header`. -/
def headerKeyGrades : List (List String) :=
  [["H0", "H1", "H2"], ["s1"], ["s2"], ["a", "b", "header", "9"]]

/-- A roster whose only data row has email digits 12 but unique id `1_13`. -/
def mismatchRoster : List (List String) :=
  [["Student Email", "First Name", "Last Name", "Unique User ID"],
   ["ab12@x.org", "A", "B", "1_13"]]

/-! ## Claim theorems -/

/-- Claim C6 (code-bug evidence): for every grade file, the Platform A
(ProjectStem) classifier raises `ValueError` — the source dedents
`header = next(reader)` out of the `with` block and reads a closed file — so
it never returns the full assignment-column range the claim describes. -/
theorem projectStem_classifier_crashes :
    ∀ rows : List (List String),
      get_ProjectStem_graded_assignments rows = Except.error PyErr.valueError :=
  fun _ => rfl

/-- Claim C9 (code-bug evidence): on a roster with a valid header and a
2-column data row, roster validation raises an uncaught `IndexError`
(`row[3]` in `validate_student_ids`, which runs before the width check)
instead of returning a failure result; `validate_student_data`, had it been
reached, would have flagged the short row as the claim describes. -/
theorem short_row_raises_index_error :
    roster_file_is_valid shortRowRoster = ([], Except.error PyErr.indexError) ∧
    validate_student_data shortRowRoster =
      (["Missing data in row 1. Roster file should contain 4 columns for each student.",
        "Roster file is missing required data. Please check the file and try again."],
       Except.ok false) :=
  ⟨rfl, rfl⟩

/-- Claim C1 (code-bug evidence): with a one-student roster and a matching
grade row, the assembled output contains only the header row — the
per-student loop of `build_CodeHS_csv` is commented out in the source and
`build_CodeHS_row` is `pass` — so the output has no data row for Jane even
though her roster and grade entries exist. -/
theorem build_codehs_output_lacks_student_rows :
    ∃ dR dG, get_students_in_roster rosterJane = Except.ok dR ∧
      get_codehs_grades_from_file gradesJane = Except.ok dG ∧
      dR "jd1@x.org" = some ["jd1@x.org", "Jane", "Doe", "1_1"] ∧
      dG "jd1@x.org" = some ["Jane", "S1", "jd1@x.org", "3", "100"] ∧
      build_CodeHS_row "jd1@x.org" dR dG [4] = none ∧
      build_CodeHS_csv dR dG [4] =
        Except.ok [["Email", "First Name", "Last Name", "Unique User ID", "A1"]] :=
  ⟨_, _, rfl, rfl, rfl, rfl, rfl, rfl⟩

/-- Claim C7 counterexample: a grade file whose activity-type row (3 entries)
does not match the 5-column primary header is classified without any error:
the classifier returns indices `[0, 2]` instead of failing validation. -/
theorem codehs_classifier_ignores_length_mismatch :
    (["exercise", "video", "exercise"] : List String).length ≠
      (["Name", "Id", "Email", "A1", "A2"] : List String).length ∧
    get_CodeHS_graded_assignments mismatchedGrades = Except.ok [0, 2] :=
  ⟨by decide, rfl⟩

/-- Claim C7 (amended): when the activity-type row length differs from the
primary header column count, classification does not fail validation — it
succeeds, returning the allow-listed indices of the activity-type row as-is;
no length comparison exists in the source. -/
theorem codehs_classifier_no_length_check :
    ∀ (r1 r2 types : List String) (rest : List (List String)),
      types.length ≠ r1.length →
      get_CodeHS_graded_assignments (r1 :: r2 :: types :: rest) =
        Except.ok (gradedIdxLoop types 0) := by
  intro r1 r2 types rest h
  rfl

/-- Witness for `codehs_classifier_no_length_check` at a concrete mismatched
file. -/
theorem codehs_classifier_no_length_check_witness :
    get_CodeHS_graded_assignments mismatchedGrades =
      Except.ok (gradedIdxLoop ["exercise", "video", "exercise"] 0) :=
  codehs_classifier_no_length_check ["Name", "Id", "Email", "A1", "A2"] ["meta"]
    ["exercise", "video", "exercise"] [] (by decide)

/-- Claim C2: the output file is written only after both the grade-file and
roster-file validations returned success; when grade validation returns
failure, or grade validation succeeds and roster validation returns failure,
the run terminates via `exit(1)` with the corresponding diagnostic printed and
no output file created (the `exit1` outcome carries no output). -/
theorem main_fail_fast :
    ∀ (import_type : String) (roster_rows grade_rows : List (List String)),
      (wroteOutput (main_run import_type roster_rows grade_rows) = true →
        (grade_file_is_valid grade_rows).2 = Except.ok true ∧
        (roster_file_is_valid roster_rows).2 = Except.ok true) ∧
      ((grade_file_is_valid grade_rows).2 = Except.ok false →
        main_run import_type roster_rows grade_rows =
          RunResult.exit1 ((grade_file_is_valid grade_rows).1 ++
            ["Invalid grades file. Please check the file and try again."])) ∧
      ((grade_file_is_valid grade_rows).2 = Except.ok true →
        (roster_file_is_valid roster_rows).2 = Except.ok false →
        main_run import_type roster_rows grade_rows =
          RunResult.exit1 ((grade_file_is_valid grade_rows).1 ++
            (roster_file_is_valid roster_rows).1 ++
            ["Invalid roster file. Please check the file and try again."])) := by
  intro it ro gr
  rcases hg : grade_file_is_valid gr with ⟨gm, rg⟩
  refine ⟨?_, ?_, ?_⟩
  · intro hw
    cases rg with
    | error e =>
      exfalso
      unfold main_run at hw
      rw [hg] at hw
      simp [wroteOutput] at hw
    | ok b =>
      cases b with
      | false =>
        exfalso
        unfold main_run at hw
        rw [hg] at hw
        simp [wroteOutput] at hw
      | true =>
        refine ⟨rfl, ?_⟩
        rcases hr : roster_file_is_valid ro with ⟨rm, rr⟩
        cases rr with
        | error e =>
          exfalso
          unfold main_run at hw
          rw [hg, hr] at hw
          simp [wroteOutput] at hw
        | ok b2 =>
          cases b2 with
          | false =>
            exfalso
            unfold main_run at hw
            rw [hg, hr] at hw
            simp [wroteOutput] at hw
          | true => rfl
  · intro hfail
    have hrg : rg = Except.ok false := hfail
    subst hrg
    unfold main_run
    rw [hg]
  · intro hgok hrfail
    have hrg : rg = Except.ok true := hgok
    subst hrg
    rcases hr : roster_file_is_valid ro with ⟨rm, rr⟩
    rw [hr] at hrfail
    have hrr : rr = Except.ok false := hrfail
    subst hrr
    unfold main_run
    rw [hg, hr]

/-- Witness for `main_fail_fast`: a bad grade file exits with status 1 and the
grade diagnostic; a bad roster (after a valid grade file) exits with status 1
and the roster diagnostic; a run that wrote output had both validations
succeed. -/
theorem main_fail_fast_witness :
    main_run "C" okRoster badGrades =
      RunResult.exit1
        ["Invalid grades file, number of columns in row 0 doesn\x27t match header.",
         "Please check the file and try again.",
         "Invalid grades file. Please check the file and try again."] ∧
    main_run "C" badRoster okGrades =
      RunResult.exit1
        ["Grades file seems valid.",
         "Student id in email and unique id do not match in row 1.",
         "Please check the file and try again.",
         "Invalid roster file. Please check the file and try again."] ∧
    ((grade_file_is_valid okGrades).2 = Except.ok true ∧
     (roster_file_is_valid okRoster).2 = Except.ok true) := by
  refine ⟨?_, ?_, ?_⟩
  · exact (main_fail_fast "C" okRoster badGrades).2.1 rfl
  · exact (main_fail_fast "C" badRoster okGrades).2.2 rfl rfl
  · exact (main_fail_fast "C" okRoster okGrades).1 rfl

/-- Claim C4 counterexample: on a grade file with a 5-column header whose
second data row has 4 columns, the validator fails and names the row (as
0-based data-row index 1), but its diagnostics contain neither the expected
count 5 nor the actual count 4 — no character `5` or `4` appears in any
printed line — refuting the claimed expected-vs-actual reporting. -/
theorem grade_diag_lacks_counts :
    grade_file_is_valid badGrades2 =
      (["Invalid grades file, number of columns in row 1 doesn\x27t match header.",
        "Please check the file and try again."], Except.ok false) ∧
    ∀ m ∈ (grade_file_is_valid badGrades2).1, ∀ c ∈ m.data, c ≠ '5' ∧ c ≠ '4' := by
  refine ⟨rfl, ?_⟩
  decide

/-- Claim C4 (amended): the grade-table validator returns failure exactly when
some data row's column count differs from the header's, and success exactly
when every data row matches; on failure it reports the first offending row by
its 0-based data-row index, without the expected-vs-actual column counts. -/
theorem grade_file_is_valid_spec :
    ∀ (header : List String) (rows : List (List String)),
      ((grade_file_is_valid (header :: rows)).2 = Except.ok true ↔
        ∀ row ∈ rows, row.length = header.length) ∧
      ((grade_file_is_valid (header :: rows)).2 = Except.ok false ↔
        ∃ row ∈ rows, row.length ≠ header.length) ∧
      (∀ (j : Nat) (row : List String), rows[j]? = some row →
        row.length ≠ header.length →
        (∀ (k : Nat) (r : List String), k < j → rows[k]? = some r →
          r.length = header.length) →
        (grade_file_is_valid (header :: rows)).1 =
          [s!"Invalid grades file, number of columns in row {j} doesn\x27t match header.",
           "Please check the file and try again."]) := by
  intro header rows
  have hdef : grade_file_is_valid (header :: rows) = gradeRowsCheck header.length rows 0 := rfl
  refine ⟨?_, ?_, ?_⟩
  · constructor
    · intro h
      by_contra hno
      push_neg at hno
      obtain ⟨row, hmem, hlen⟩ := hno
      have hf := gradeRowsCheck_exists_bad header.length rows 0 ⟨row, hmem, hlen⟩
      rw [hdef] at h
      rw [h] at hf
      exact absurd hf (by simp)
    · intro h
      rw [hdef, gradeRowsCheck_all header.length rows 0 h]
  · constructor
    · intro h
      by_contra hno
      push_neg at hno
      rw [hdef, gradeRowsCheck_all header.length rows 0 hno] at h
      exact absurd h (by simp)
    · intro h
      rw [hdef]
      exact gradeRowsCheck_exists_bad header.length rows 0 h
  · intro j row hj hbad hbefore
    have h := gradeRowsCheck_first_bad header.length rows j 0 row hj hbad hbefore
    rw [Nat.zero_add] at h
    rw [hdef, h]

/-- Witness for `grade_file_is_valid_spec` at a concrete mismatched file. -/
theorem grade_file_is_valid_spec_witness :
    (grade_file_is_valid badGrades2).1 =
      ["Invalid grades file, number of columns in row 1 doesn\x27t match header.",
       "Please check the file and try again."] ∧
    (grade_file_is_valid badGrades2).2 = Except.ok false := by
  have h := grade_file_is_valid_spec ["a", "b", "c", "d", "e"]
    [["p", "q", "r", "s", "t"], ["u", "v", "w", "x"]]
  constructor
  · exact h.2.2 1 ["u", "v", "w", "x"] rfl (by decide) (by
      intro k r hk hr
      have hk0 : k = 0 := by omega
      subst hk0
      have hr0 : ["p", "q", "r", "s", "t"] = r := by simpa using hr
      rw [← hr0]
      decide)
  · exact h.2.1.mpr ⟨["u", "v", "w", "x"], by simp, by decide⟩

/-- Claim C3: for a roster whose header has `Student Email` at index 0 and
`Unique User ID` at index 3, the cross-id check of a data row requires the
email to match `^[A-Za-z]{2}(\d+)@.*$` (the computable matcher agrees with
the declarative pattern); at the first violating row it fails with the
invalid-email-format diagnostic naming the 1-based row when the email does
not match, and with the id-mismatch diagnostic naming the row when it matches
but the unique id is not `1_` followed by the captured digits; and a roster
whose ids check fails (with headers valid) makes the roster validator return
failure. -/
theorem validate_student_ids_cross_check :
    (∀ e ds, re_match_student_email e = some ds ↔ emailPattern e ds) ∧
    (∀ (header_row : List String) (rows : List (List String)),
      pyIndex header_row "Student Email" = Except.ok 0 →
      pyIndex header_row "Unique User ID" = Except.ok 3 →
      ∀ (j : Nat) (row : List String) (e u : String), rows[j]? = some row →
        (∀ (k : Nat) (r : List String), k < j → rows[k]? = some r → idRowOk r) →
        row[0]? = some e → row[3]? = some u →
        ((re_match_student_email e = none →
           validate_student_ids (header_row :: rows) =
             ([s!"Invalid email format in row {j + 1}.",
               "Please check the file and try again."], Except.ok false)) ∧
         (∀ ds, re_match_student_email e = some ds → u ≠ "1_" ++ ds →
           validate_student_ids (header_row :: rows) =
             ([s!"Student id in email and unique id do not match in row {j + 1}.",
               "Please check the file and try again."], Except.ok false)))) ∧
    (∀ (rows : List (List String)) (m1 m2 : List String),
      validate_headers rows = (m1, Except.ok true) →
      validate_student_ids rows = (m2, Except.ok false) →
      (roster_file_is_valid rows).2 = Except.ok false) := by
  refine ⟨re_match_student_email_iff, ?_, ?_⟩
  · intro header_row rows hSE hUU j row e u hj hbefore h0 h3
    have h := ids_loop_first_bad header_row hSE hUU rows j 0 row e u hj hbefore h0 h3
    rw [Nat.zero_add] at h
    exact h
  · intro rows m1 m2 h1 h2
    rw [roster_of_ids_false rows m1 m2 h1 h2]

/-- Witness for `validate_student_ids_cross_check`: a concrete roster whose
only row has email digits 12 but unique id `1_13` fails the ids check with
the row-1 mismatch diagnostic and fails the roster validator, and the matcher
agrees with the declarative pattern on that email. -/
theorem validate_student_ids_cross_check_witness :
    validate_student_ids mismatchRoster =
      (["Student id in email and unique id do not match in row 1.",
        "Please check the file and try again."], Except.ok false) ∧
    (roster_file_is_valid mismatchRoster).2 = Except.ok false ∧
    emailPattern "ab12@x.org" "12" := by
  refine ⟨?_, ?_, ?_⟩
  · exact (validate_student_ids_cross_check.2.1
      ["Student Email", "First Name", "Last Name", "Unique User ID"]
      [["ab12@x.org", "A", "B", "1_13"]] rfl rfl 0
      ["ab12@x.org", "A", "B", "1_13"] "ab12@x.org" "1_13" rfl
      (fun k r hk _ => absurd hk (Nat.not_lt_zero k)) rfl rfl).2 "12" rfl (by decide)
  · exact validate_student_ids_cross_check.2.2 mismatchRoster []
      ["Student id in email and unique id do not match in row 1.",
       "Please check the file and try again."] rfl rfl
  · exact (validate_student_ids_cross_check.1 "ab12@x.org" "12").mp rfl

/-- Claim C5: for Platform B, an index is in the classifier result exactly
when the activity type at that index, stripped and lowercased, is in the
fixed allow-list; in particular `Video`, `video` and ` Video ` are excluded
while `Exercise` and `exercise ` are included. -/
theorem codehs_classifier_allowlist :
    ∀ (r1 r2 : List String) (types : List String) (rest : List (List String)),
      get_CodeHS_graded_assignments (r1 :: r2 :: types :: rest) =
        Except.ok (gradedIdxLoop types 0) ∧
      (∀ i, i ∈ gradedIdxLoop types 0 ↔
        ∃ t, types[i]? = some t ∧ pyLower (pyStrip t) ∈ codehs_graded_types) ∧
      (∀ (i : Nat) (t : String), types[i]? = some t →
        (t = "Video" ∨ t = "video" ∨ t = " Video ") →
        i ∉ gradedIdxLoop types 0) ∧
      (∀ (i : Nat) (t : String), types[i]? = some t →
        (t = "Exercise" ∨ t = "exercise ") →
        i ∈ gradedIdxLoop types 0) := by
  intro r1 r2 types rest
  have hmem : ∀ i, i ∈ gradedIdxLoop types 0 ↔
      ∃ t, types[i]? = some t ∧ pyLower (pyStrip t) ∈ codehs_graded_types := by
    intro i
    rw [mem_gradedIdxLoop types 0 i]
    constructor
    · rintro ⟨j, t, hj, ht, rfl⟩
      rw [Nat.zero_add]
      exact ⟨t, hj, ht⟩
    · rintro ⟨t, hi, ht⟩
      exact ⟨i, t, hi, ht, by omega⟩
  refine ⟨rfl, hmem, ?_, ?_⟩
  · intro i t hi hvid hmemi
    obtain ⟨t2, hi2, ht2⟩ := (hmem i).mp hmemi
    rw [hi] at hi2
    have ht : t = t2 := by injection hi2
    subst ht
    rcases hvid with rfl | rfl | rfl
    · exact absurd ht2 (by decide)
    · exact absurd ht2 (by decide)
    · exact absurd ht2 (by decide)
  · intro i t hi hex
    apply (hmem i).mpr
    refine ⟨t, hi, ?_⟩
    rcases hex with rfl | rfl
    · decide
    · decide

/-- Witness for `codehs_classifier_allowlist` at a concrete activity-type
row: the classifier keeps exactly the allow-listed indices `[0, 2, 4]`,
excluding both `Video` variants and including both `Exercise` variants. -/
theorem codehs_classifier_allowlist_witness :
    get_CodeHS_graded_assignments [["h"], ["m"], sampleTypes] = Except.ok [0, 2, 4] ∧
    1 ∉ gradedIdxLoop sampleTypes 0 ∧ 3 ∉ gradedIdxLoop sampleTypes 0 ∧
    0 ∈ gradedIdxLoop sampleTypes 0 ∧ 2 ∈ gradedIdxLoop sampleTypes 0 := by
  have h := codehs_classifier_allowlist ["h"] ["m"] sampleTypes []
  refine ⟨h.1, ?_, ?_, ?_, ?_⟩
  · exact h.2.2.1 1 " Video " rfl (Or.inr (Or.inr rfl))
  · exact h.2.2.1 3 "video" rfl (Or.inr (Or.inl rfl))
  · exact h.2.2.2 0 "Exercise" rfl (Or.inl rfl)
  · exact h.2.2.2 2 "exercise " rfl (Or.inr rfl)

/-- Claim C8 counterexample: on a roster with two id-mismatch rows the
validator reports only the row-1 diagnostic and stops — the row-2 failure in
the same check is never reported; and on a roster whose header check fails,
the width/non-empty check (which would itself fail) is never run, so its
diagnostic is absent from the output. -/
theorem roster_validator_reporting_gaps :
    (roster_file_is_valid twoBadRowsRoster =
      (["Student id in email and unique id do not match in row 1.",
        "Please check the file and try again."], Except.ok false) ∧
     "Student id in email and unique id do not match in row 2." ∉
       (roster_file_is_valid twoBadRowsRoster).1) ∧
    (roster_file_is_valid missingHeaderRoster =
      (["Roster file must contain \x27First Name\x27 in the header row.",
        "Roster file is missing required headers. Please check the file and try again."],
       Except.ok false) ∧
     (validate_student_data missingHeaderRoster).2 = Except.ok false ∧
     "Missing data in row 1. Email and Unique Id should not be empty." ∉
       (roster_file_is_valid missingHeaderRoster).1) := by
  refine ⟨⟨rfl, by decide⟩, rfl, rfl, by decide⟩

/-- Claim C8 (amended): the overall roster validity is the conjunction of the
three checks (headers; cross-id; width and non-empty identity), but reporting
is partial: the ids check stops at its first violating row, and when the
header check fails, the later checks are not evaluated, so the printed output
is exactly the header-check diagnostics. -/
theorem roster_validity_conjunction :
    ∀ rows : List (List String),
      ((roster_file_is_valid rows).2 = Except.ok true ↔
        ((validate_headers rows).2 = Except.ok true ∧
         (validate_student_ids rows).2 = Except.ok true ∧
         (validate_student_data rows).2 = Except.ok true)) ∧
      (∀ m1, validate_headers rows = (m1, Except.ok false) →
        (roster_file_is_valid rows).1 = m1) := by
  intro rows
  constructor
  · rcases h1 : validate_headers rows with ⟨m1, r1⟩
    cases r1 with
    | error e =>
      rw [roster_of_headers_error rows m1 e h1]
      simp
    | ok b1 =>
      cases b1 with
      | false =>
        rw [roster_of_headers_false rows m1 h1]
        simp
      | true =>
        rcases h2 : validate_student_ids rows with ⟨m2, r2⟩
        cases r2 with
        | error e =>
          rw [roster_of_ids_error rows m1 m2 e h1 h2]
          simp
        | ok b2 =>
          cases b2 with
          | false =>
            rw [roster_of_ids_false rows m1 m2 h1 h2]
            simp
          | true =>
            rcases h3 : validate_student_data rows with ⟨m3, r3⟩
            cases r3 with
            | error e =>
              rw [roster_of_data_error rows m1 m2 m3 e h1 h2 h3]
              simp
            | ok b3 =>
              cases b3 with
              | false =>
                rw [roster_of_data_false rows m1 m2 m3 h1 h2 h3]
                simp
              | true =>
                rw [roster_of_all_ok rows m1 m2 m3 h1 h2 h3]
                simp
  · intro m1 h1
    rw [roster_of_headers_false rows m1 h1]

/-- Witness for `roster_validity_conjunction`: a fully valid roster passes
(conjunction direction), and a roster with a failing header check prints
exactly the header diagnostics. -/
theorem roster_validity_conjunction_witness :
    (roster_file_is_valid okRoster).2 = Except.ok true ∧
    (roster_file_is_valid missingHeaderRoster).1 =
      ["Roster file must contain \x27First Name\x27 in the header row.",
       "Roster file is missing required headers. Please check the file and try again."] := by
  constructor
  · exact ((roster_validity_conjunction okRoster).1).mpr ⟨rfl, rfl, rfl⟩
  · exact (roster_validity_conjunction missingHeaderRoster).2 _ rfl

/-- Claim C10: both index builders store the header row under the literal key
`header` in the same dict as the student rows; consequently a data row whose
key cell equals `header` occupies the same entry, the last write wins, and
the dict no longer maps `header` to the header row. -/
theorem index_builders_header_collision :
    (∀ (header_row : List String) (rest : List (List String)) (d : PyDict),
      get_students_in_roster (header_row :: rest) = Except.ok d →
      ((lastKeyed 0 "header" rest = none → d "header" = some header_row) ∧
       (∀ r, lastKeyed 0 "header" rest = some r → d "header" = some r))) ∧
    (∀ (r0 r1 r2 : List String) (rest : List (List String)) (d : PyDict),
      get_codehs_grades_from_file (r0 :: r1 :: r2 :: rest) = Except.ok d →
      ((lastKeyed 2 "header" rest = none → d "header" = some r0) ∧
       (∀ r, lastKeyed 2 "header" rest = some r → d "header" = some r))) := by
  constructor
  · intro header_row rest d h
    have hl := addRosterRows_lookup rest (dinsert pyDictEmpty "header" header_row) d h "header"
    constructor
    · intro hnone
      rw [hl, hnone]
      simp [dinsert]
    · intro r hsome
      rw [hl, hsome]
  · intro r0 r1 r2 rest d h
    have hl := addGradeRows_lookup rest (dinsert pyDictEmpty "header" r0) d h "header"
    constructor
    · intro hnone
      rw [hl, hnone]
      simp [dinsert]
    · intro r hsome
      rw [hl, hsome]

/-- Witness for `index_builders_header_collision`: in both builders, a data
row keyed `header` silently replaces the stored header row. -/
theorem index_builders_header_collision_witness :
    (∃ d, get_students_in_roster headerKeyRoster = Except.ok d ∧
      d "header" = some ["header", "X", "Y", "1_1"]) ∧
    (∃ g, get_codehs_grades_from_file headerKeyGrades = Except.ok g ∧
      g "header" = some ["a", "b", "header", "9"]) := by
  constructor
  · refine ⟨_, rfl, ?_⟩
    exact (index_builders_header_collision.1
      ["Student Email", "First Name", "Last Name", "Unique User ID"]
      [["header", "X", "Y", "1_1"]] _ rfl).2 ["header", "X", "Y", "1_1"] rfl
  · refine ⟨_, rfl, ?_⟩
    exact (index_builders_header_collision.2 ["H0", "H1", "H2"] ["s1"] ["s2"]
      [["a", "b", "header", "9"]] _ rfl).2 ["a", "b", "header", "9"] rfl
